import Mathlib

/-!
Shallow embedding of the click-automation engine of `src/main.rs` (the Clickr
auto-clicker).  Machine integers (`u8`, `u32`) are modelled as `Nat` (no claim
depends on wrap-around), `f32`/`f64` arithmetic is modelled exactly over `ℚ`
(and over `ℝ` where the source takes a square root), time is an oracle passed
into each tick, and the random draw of `rng.gen_range(min..=max)` is modelled
by a parameter `u ∈ [0, 1]` with sample `min + u * (max - min)`.  A call to
`.expect(..)` on a failed pointer operation is a Rust panic and is modelled as
a distinguished `panicked` outcome that carries the state at panic time.
-/

namespace Clickr

/-- Embeds Rust `enum MouseButton { Left, Right, Middle }` (main.rs:17-22). -/
inductive MouseButton
  | Left
  | Right
  | Middle
  deriving DecidableEq, Fintype

/-- Embeds Rust `enum ClickMode { Click, Toggle }` (main.rs:24-28). -/
inductive ClickMode
  | Click
  | Toggle
  deriving DecidableEq, Fintype

/-- Embeds Rust `enum LimitMode { None, Clicks, Time }` (main.rs:30-35). -/
inductive LimitMode
  | None
  | Clicks
  | Time
  deriving DecidableEq, Fintype

/-- Embeds Rust `enum IntervalMode { Constant, Random }` (main.rs:37-41). -/
inductive IntervalMode
  | Constant
  | Random
  deriving DecidableEq, Fintype

/-- Embeds `egui::Color32` as used by the engine: an RGB triple of `u8`
(alpha is never consulted by the engine). -/
structure Color32 where
  r : Nat
  g : Nat
  b : Nat
  deriving DecidableEq

/-- Embeds `u8::abs_diff` used in `percentage_distance_between_colors`. -/
def abs_diff (a b : Nat) : Nat := max a b - min a b

/-- Squared RGB distance `Δr² + Δg² + Δb²` computed (in `f32`) inside
`percentage_distance_between_colors` (main.rs:44-48). -/
def color_sq_dist (a b : Color32) : Nat :=
  abs_diff a.r b.r ^ 2 + abs_diff a.g b.g ^ 2 + abs_diff a.b b.b ^ 2

/-- Embeds `percentage_distance_between_colors` (main.rs:43-52):
`sqrt(Δr² + Δg² + Δb²) / 441.672956`, with exact real arithmetic in place of
`f32`.  The source divides by the literal `441.672956` (an `f32` rounding of
`sqrt(255² * 3)`). -/
noncomputable def percentage_distance_between_colors (a b : Color32) : ℝ :=
  Real.sqrt (color_sq_dist a b) / (441672956 / 1000000)

/-- Decidable form of the gate comparison
`percentage_distance_between_colors(a, b) <= t` (main.rs:137-140).  Because
the distance is `sqrt(d) / c` with `c = 441.672956 > 0`, the comparison is
equivalent to `0 ≤ t ∧ d ≤ (t * c)²`, which is exact rational arithmetic;
`percentage_le_iff` below proves the equivalence against the real-valued
definition. -/
def percentage_le (a b : Color32) (t : ℚ) : Bool :=
  decide (0 ≤ t ∧ (color_sq_dist a b : ℚ) ≤ (t * (441672956 / 1000000)) ^ 2)

/-- The decidable gate comparison agrees with the real-valued distance
function of the source. -/
theorem percentage_le_iff (a b : Color32) (t : ℚ) :
    percentage_le a b t = true ↔
      percentage_distance_between_colors a b ≤ (t : ℝ) := by
  have hc : (0 : ℝ) < 441672956 / 1000000 := by norm_num
  rw [percentage_le, decide_eq_true_iff, percentage_distance_between_colors,
    div_le_iff₀ hc, Real.sqrt_le_iff]
  constructor
  · rintro ⟨ht, hle⟩
    have ht' : (0 : ℝ) ≤ (t : ℚ) := by exact_mod_cast ht
    refine ⟨mul_nonneg ht' hc.le, ?_⟩
    calc ((color_sq_dist a b : ℕ) : ℝ)
        = (((color_sq_dist a b : ℕ) : ℚ) : ℝ) := by push_cast; ring
      _ ≤ (((t * (441672956 / 1000000)) ^ 2 : ℚ) : ℝ) := by exact_mod_cast hle
      _ = ((t : ℝ) * (441672956 / 1000000)) ^ 2 := by push_cast; ring
  · rintro ⟨htc, hle⟩
    have ht : (0 : ℚ) ≤ t := by
      have : (0 : ℝ) ≤ (t : ℚ) := by nlinarith
      exact_mod_cast this
    refine ⟨ht, ?_⟩
    have : (((color_sq_dist a b : ℕ) : ℚ) : ℝ) ≤
        (((t * (441672956 / 1000000)) ^ 2 : ℚ) : ℝ) := by
      calc (((color_sq_dist a b : ℕ) : ℚ) : ℝ)
          = ((color_sq_dist a b : ℕ) : ℝ) := by push_cast; ring
        _ ≤ ((t : ℝ) * (441672956 / 1000000)) ^ 2 := hle
        _ = (((t * (441672956 / 1000000)) ^ 2 : ℚ) : ℝ) := by push_cast; ring
    exact_mod_cast this

/-- Embeds the fields of `struct App` (main.rs:186-218) consulted by the
click loop and its collaborators.  `mouse: Mouse` is the external pointer
capability (modelled by per-tick success oracles), and
`clicker_start_time: Instant` is modelled by passing the elapsed seconds of
each tick as an oracle. -/
structure App where
  interval_mode : IntervalMode
  hours : Nat
  minutes : Nat
  seconds : Nat
  milliseconds : Nat
  interval_mode_random_min : ℚ
  interval_mode_random_max : ℚ
  mouse_button : MouseButton
  click_mode : ClickMode
  mouse_is_pressed : Bool
  clicker_id : Nat
  color_mode : Bool
  color_mode_color : Color32
  color_mode_distance_threshold : ℚ
  hovering_pixel_color : Color32
  limit_mode : LimitMode
  limit_mode_clicks_amount : Nat
  limit_mode_time : ℚ
  clicker_enabled : Bool
  last_clicker_enabled : Bool
  total_clicks : Nat
  deriving DecidableEq

/-- Embeds the limit-mode `match` at the top of the loop body
(main.rs:115-133); `true` means the branch sets `clicker_enabled = false` and
breaks.  `elapsed` is `Instant::now().duration_since(clicker_start_time)` in
seconds. -/
def limit_says_stop (elapsed : ℚ) (s : App) : Bool :=
  match s.limit_mode with
  | .Clicks => decide (s.limit_mode_clicks_amount ≤ s.total_clicks)
  | .Time => decide (s.limit_mode_time ≤ elapsed)
  | .None => false

/-- Embeds the `should_click` expression (main.rs:135-140). -/
def should_click (s : App) : Bool :=
  !s.color_mode ||
    (s.color_mode &&
      percentage_le s.hovering_pixel_color s.color_mode_color
        s.color_mode_distance_threshold)

/-- Embeds the `total_seconds` computation (main.rs:148-151). -/
def total_seconds (s : App) : ℚ :=
  (s.hours : ℚ) * 3600 + (s.minutes : ℚ) * 60 + (s.seconds : ℚ)
    + (s.milliseconds : ℚ) / 1000

/-- Embeds the `time_to_wait` computation (main.rs:153-162).  The uniform
draw `rng.gen_range(min..=max)` is modelled by a parameter `u`; for
`u ∈ [0, 1]` the sample is `min + u * (max - min)`. -/
def time_to_wait (u : ℚ) (s : App) : ℚ :=
  match s.interval_mode with
  | .Constant => total_seconds s
  | .Random =>
      s.interval_mode_random_min
        + u * (s.interval_mode_random_max - s.interval_mode_random_min)

/-- Embeds `mouse_rs::types::keys::Keys` restricted to the three values the
engine uses. -/
inductive MouseKey
  | LEFT
  | MIDDLE
  | RIGHT
  deriving DecidableEq

/-- Embeds the button translation at the top of `App::click_mouse`
(main.rs:272-276) and `App::try_release_mouse` (main.rs:295-299). -/
def button_key (b : MouseButton) : MouseKey :=
  match b with
  | .Left => .LEFT
  | .Middle => .MIDDLE
  | .Right => .RIGHT

/-- One pointer event handed to the `mouse_rs` capability. -/
inductive MouseEvent
  | press (k : MouseKey)
  | release (k : MouseKey)
  | click (k : MouseKey)
  deriving DecidableEq

/-- Embeds the event(s) `App::click_mouse` (main.rs:271-290) sends to the
pointer capability, as a function of the current state. -/
def click_mouse_events (s : App) : List MouseEvent :=
  match s.click_mode with
  | .Toggle =>
      if s.mouse_is_pressed then [.press (button_key s.mouse_button)]
      else [.release (button_key s.mouse_button)]
  | _ => [.click (button_key s.mouse_button)]

/-- Why a loop iteration exited. `stale` is the check at main.rs:111 (the
clicker was disabled or the session id no longer matches); `limit` is a
limit-mode break (main.rs:115-133), which also clears `clicker_enabled`. -/
inductive ExitReason
  | stale
  | limit
  deriving DecidableEq

/-- Result of one iteration of the loop body (main.rs:109-167).  `panicked`
is reached when a pointer operation fails and `.expect(..)` aborts the loop
thread; it carries the `App` state at the moment of the panic. -/
inductive TickResult
  | exit (reason : ExitReason) (s : App)
  | next (s : App) (wait : ℚ)
  | panicked (s : App)
  deriving DecidableEq

/-- Embeds one iteration of the loop body of `AppHolder::click_loop`
(main.rs:109-167).  `captured` is the `clicker_id` captured at loop start,
`elapsed` the session's elapsed seconds at this tick, `u` the random-draw
parameter, and `mouseOk` whether the pointer capability succeeds (on failure
`.expect` panics; `mouse_is_pressed` has already been flipped at
main.rs:143, and `total_clicks` has not yet been incremented). -/
def tick (captured : Nat) (elapsed u : ℚ) (mouseOk : Bool) (s : App) :
    TickResult :=
  if s.clicker_enabled = false ∨ captured ≠ s.clicker_id then
    .exit .stale s
  else if limit_says_stop elapsed s then
    .exit .limit { s with clicker_enabled := false }
  else if should_click s then
    if mouseOk then
      .next { s with mouse_is_pressed := !s.mouse_is_pressed,
                     total_clicks := s.total_clicks + 1 }
        (time_to_wait u { s with mouse_is_pressed := !s.mouse_is_pressed,
                                 total_clicks := s.total_clicks + 1 })
    else
      .panicked { s with mouse_is_pressed := !s.mouse_is_pressed }
  else
    .next s (time_to_wait u s)

/-- Oracles consumed by one tick: elapsed session seconds, the random-draw
parameter, and whether the pointer capability succeeds. -/
structure TickIn where
  elapsed : ℚ
  u : ℚ
  mouseOk : Bool
  deriving DecidableEq

/-- Result of running the loop: it exited (main.rs:112/119/129), the loop
thread panicked inside a pointer call, or the supplied oracle list ran out
while the loop was still going. -/
inductive LoopResult
  | exited (reason : ExitReason) (s : App)
  | panicked (s : App)
  | fuelOut (s : App)
  deriving DecidableEq

/-- Runs the `loop` of `AppHolder::click_loop` (main.rs:109-167), one
`TickIn` oracle per iteration. -/
def run (captured : Nat) : List TickIn → App → LoopResult
  | [], s => .fuelOut s
  | i :: is, s =>
      match tick captured i.elapsed i.u i.mouseOk s with
      | .exit r s' => .exited r s'
      | .panicked s' => .panicked s'
      | .next s' _ => run captured is s'

/-- The state held by any `LoopResult`. -/
def LoopResult.state : LoopResult → App
  | .exited _ s => s
  | .panicked s => s
  | .fuelOut s => s

/-- Embeds the session initialisation at the top of `AppHolder::click_loop`
(main.rs:102-107): reset `total_clicks`, clear `mouse_is_pressed`, bump
`clicker_id` (the bumped id is the one the loop captures). -/
def click_loop_init (s : App) : App :=
  { s with total_clicks := 0, mouse_is_pressed := false,
           clicker_id := s.clicker_id + 1 }

/-- Embeds `AppHolder::click_loop` (main.rs:101-168) end to end:
initialisation followed by the loop, with the freshly bumped `clicker_id`
captured. -/
def click_loop (inputs : List TickIn) (s : App) : LoopResult :=
  run (click_loop_init s).clicker_id inputs (click_loop_init s)

/-- Embeds `App::try_release_mouse` (main.rs:291-305).  `releaseOk` is
whether the pointer release succeeds; `none` models the `.expect` panic when
it does not. -/
def try_release_mouse (releaseOk : Bool) (s : App) : Option App :=
  if s.mouse_is_pressed then
    if releaseOk then some { s with mouse_is_pressed := false } else none
  else
    some s

/-- Embeds the enabled-edge detection of `AppHolder::update`
(main.rs:636-651): when `clicker_enabled` changed since the last frame,
record it; on a rising edge the UI records the start time and spawns the
loop (modelled separately by `click_loop`), on a falling edge it calls
`try_release_mouse`. -/
def ui_update_edge (releaseOk : Bool) (s : App) : Option App :=
  if s.clicker_enabled ≠ s.last_clicker_enabled then
    if s.clicker_enabled then
      some { s with last_clicker_enabled := s.clicker_enabled }
    else
      try_release_mouse releaseOk
        { s with last_clicker_enabled := s.clicker_enabled }
  else
    some s

/-- Embeds `AppHolder::toggle_clicker` (main.rs:180-183), invoked by the
in-window F6 shortcut (main.rs:676-680) and the play/pause button. -/
def toggle_clicker (s : App) : App :=
  { s with clicker_enabled := !s.clicker_enabled }

/-- Embeds the global `KeybdKey::F6Key.bind` handler (main.rs:259-262),
which flips `clicker_enabled` on its own thread. -/
def f6_hotkey_handler (s : App) : App :=
  { s with clicker_enabled := !s.clicker_enabled }

/-- Embeds Rust `f32::clamp` (for `lo ≤ hi`): `min (max x lo) hi`. -/
def rust_clamp (x lo hi : ℚ) : ℚ := min (max x lo) hi

/-- Embeds the clamping of the random-interval bounds in `AppHolder::update`
(main.rs:404-405): `max = max.clamp(0.0, 3600.0); min = min.clamp(0.0, max)`. -/
def clamp_random_bounds (mn mx : ℚ) : ℚ × ℚ :=
  (rust_clamp mn 0 (rust_clamp mx 0 3600), rust_clamp mx 0 3600)

/-- Baseline configuration used by concrete witnesses: defaults of
`AppHolder::default` (main.rs:220-267) except that the clicker has been
enabled, the limit is one click, and the constant interval is zero. -/
def demo_app : App :=
  { interval_mode := .Constant, hours := 0, minutes := 0, seconds := 0,
    milliseconds := 0,
    interval_mode_random_min := 1, interval_mode_random_max := 2,
    mouse_button := .Left, click_mode := .Click,
    mouse_is_pressed := false, clicker_id := 0,
    color_mode := false, color_mode_color := ⟨0, 0, 0⟩,
    color_mode_distance_threshold := 0,
    hovering_pixel_color := ⟨0, 0, 0⟩,
    limit_mode := .Clicks, limit_mode_clicks_amount := 1,
    limit_mode_time := 1,
    clicker_enabled := true, last_clicker_enabled := true,
    total_clicks := 0 }

/-- Baseline state with the color gate enabled, threshold 0, and a sampled
pixel far from the black target: the gate refuses to fire. -/
def gated_demo_app : App :=
  { demo_app with
      clicker_id := 1
      color_mode := true
      hovering_pixel_color := ⟨255, 0, 0⟩ }

/-- Baseline state whose click limit (1) is already exhausted. -/
def exhausted_demo_app : App :=
  { demo_app with
      clicker_id := 1
      total_clicks := 1 }

/-- Final state of a baseline session that ran to completion through its
click limit of 1: one fire, then a limit exit that cleared the flag. -/
def limit_demo_final : App :=
  { demo_app with
      clicker_id := 1
      mouse_is_pressed := true
      total_clicks := 1
      clicker_enabled := false }

/-- Firing leaves every field consulted by `time_to_wait` unchanged, so the
wait computed after a fire equals the wait computed from the pre-fire state. -/
theorem time_to_wait_fire_invariant (u : ℚ) (s : App) :
    time_to_wait u
        { s with mouse_is_pressed := !s.mouse_is_pressed,
                 total_clicks := s.total_clicks + 1 } =
      time_to_wait u s := by
  unfold time_to_wait
  cases hmode : s.interval_mode <;> simp [total_seconds]

/-- C10: a single F6 press that reaches both handlers (the global
`KeybdKey::F6Key.bind` hotkey and the in-window `consume_shortcut` F6
shortcut, both registered on the same key) toggles `clicker_enabled` twice;
each handler alone flips the flag, and the two handlers composed leave it
unchanged instead of flipping it. -/
theorem f6_double_toggle (s : App) :
    (toggle_clicker s).clicker_enabled = !s.clicker_enabled ∧
    (f6_hotkey_handler s).clicker_enabled = !s.clicker_enabled ∧
    (f6_hotkey_handler (toggle_clicker s)).clicker_enabled =
      s.clicker_enabled ∧
    (toggle_clicker (f6_hotkey_handler s)).clicker_enabled =
      s.clicker_enabled := by
  refine ⟨rfl, rfl, ?_, ?_⟩ <;>
    simp [toggle_clicker, f6_hotkey_handler]

/-- C7 counterexample: the claim says the click-mode configuration offers
three variants (Single, Double, Toggle); the `ClickMode` enum of the code
has exactly two inhabitants, so it does not offer three. -/
theorem click_mode_card_cex : Fintype.card ClickMode ≠ 3 := by decide

/-- C7 amended: the click-mode configuration offers exactly the two variants
Click and Toggle, and in the non-Toggle (Click) mode one action is a single
platform click of the configured button (one press-and-release), not two
consecutive clicks. -/
theorem click_mode_two_variants :
    Fintype.card ClickMode = 2 ∧
    (∀ c : ClickMode, c = ClickMode.Click ∨ c = ClickMode.Toggle) ∧
    (∀ s : App, s.click_mode = ClickMode.Click →
      click_mouse_events s = [MouseEvent.click (button_key s.mouse_button)]) := by
  refine ⟨by decide, ?_, ?_⟩
  · intro c; cases c <;> simp
  · intro s h; simp [click_mouse_events, h]

/-- C7 witness: the amended theorem applied at the baseline configuration,
whose click mode is Click. -/
theorem click_mode_two_variants_witness :
    click_mouse_events demo_app = [MouseEvent.click (button_key .Left)] :=
  click_mode_two_variants.2.2 demo_app rfl

/-- C1 counterexample: with the color gate enabled, target black, sampled
color RGB(255,0,0) and threshold 3/5, the tick fires although the normalized
distance (≈ 0.577) is far above `threshold/255` (≈ 0.0024): the code
compares the distance against the threshold directly on the 0..1 scale, not
against `threshold/255`. -/
theorem color_gate_scale_cex :
    should_click
        { demo_app with color_mode := true,
                        hovering_pixel_color := ⟨255, 0, 0⟩,
                        color_mode_color := ⟨0, 0, 0⟩,
                        color_mode_distance_threshold := 3 / 5 } = true ∧
    ¬ percentage_distance_between_colors ⟨255, 0, 0⟩ ⟨0, 0, 0⟩ ≤
        ((3 / 5 / 255 : ℚ) : ℝ) := by
  constructor
  · show (!true || (true && percentage_le ⟨255, 0, 0⟩ ⟨0, 0, 0⟩ (3 / 5))) = true
    rw [percentage_le]
    simp only [Bool.not_true, Bool.false_or, Bool.true_and, decide_eq_true_iff]
    constructor
    · norm_num
    · show ((255 ^ 2 + 0 ^ 2 + 0 ^ 2 : ℕ) : ℚ) ≤ _
      norm_num
  · intro hle
    have h := (percentage_le_iff ⟨255, 0, 0⟩ ⟨0, 0, 0⟩ (3 / 5 / 255)).mpr hle
    rw [percentage_le, decide_eq_true_iff] at h
    have h2 := h.2
    rw [show color_sq_dist ⟨255, 0, 0⟩ ⟨0, 0, 0⟩ = 65025 from rfl] at h2
    norm_num at h2

/-- C1 amended: when the color gate is enabled, a tick fires if and only if
the normalized color distance `sqrt(Δr²+Δg²+Δb²)/441.672956` between the
sampled pixel color and the target color is at most the configured
threshold, which is already expressed on the normalized 0..1 scale (no /255
conversion); when the color gate is disabled, every tick fires. -/
theorem color_gate_threshold_direct (s : App) :
    (s.color_mode = true →
      (should_click s = true ↔
        percentage_distance_between_colors s.hovering_pixel_color
            s.color_mode_color ≤ (s.color_mode_distance_threshold : ℝ))) ∧
    (s.color_mode = false → should_click s = true) := by
  constructor
  · intro h
    rw [should_click, h]
    simp only [Bool.not_true, Bool.false_or, Bool.true_and]
    exact percentage_le_iff _ _ _
  · intro h
    rw [should_click, h]
    simp

/-- C1 witness: the amended theorem applied at the baseline configuration
(gate disabled, so the tick fires) and at its gate-enabled variant with
matching colors and threshold 0. -/
theorem color_gate_threshold_direct_witness :
    should_click demo_app = true ∧
    (should_click { demo_app with color_mode := true } = true ↔
      percentage_distance_between_colors ⟨0, 0, 0⟩ ⟨0, 0, 0⟩ ≤ ((0 : ℚ) : ℝ)) :=
  ⟨(color_gate_threshold_direct demo_app).2 rfl,
   (color_gate_threshold_direct { demo_app with color_mode := true }).1 rfl⟩

/-- C3 counterexample: on a tick where the pointer capability fails (the
`.expect` in `App::click_mouse` panics), the loop thread dies with
`clicker_enabled` still `true`: the enabled flag is not cleared, contrary to
the claim that the loop "clears the enabled flag". -/
theorem pointer_error_keeps_enabled_cex :
    tick 1 0 0 false (click_loop_init demo_app) =
      .panicked { click_loop_init demo_app with mouse_is_pressed := true } ∧
    ({ click_loop_init demo_app with
        mouse_is_pressed := true } : App).clicker_enabled = true := by
  constructor
  · show tick 1 0 0 false (click_loop_init demo_app) = _
    simp [tick, click_loop_init, demo_app, limit_says_stop, should_click]
  · rfl

/-- C3 amended: if the pointer-control capability reports an error when the
Action Executor performs a press, release, or click, the `.expect` call
panics the loop thread at once — the session is aborted without retrying and
without incrementing `total_clicks` — but the loop does not clear the
enabled flag (`clicker_enabled` is left unchanged), and the panic unwinds
the loop thread while it holds the shared-state lock. -/
theorem pointer_error_panics (captured : Nat) (e u : ℚ) (s : App)
    (hen : s.clicker_enabled = true) (hid : captured = s.clicker_id)
    (hlim : limit_says_stop e s = false) (hfire : should_click s = true) :
    tick captured e u false s =
      .panicked { s with mouse_is_pressed := !s.mouse_is_pressed } ∧
    ({ s with mouse_is_pressed := !s.mouse_is_pressed } : App).clicker_enabled =
      s.clicker_enabled ∧
    ({ s with mouse_is_pressed := !s.mouse_is_pressed } : App).total_clicks =
      s.total_clicks := by
  refine ⟨?_, rfl, rfl⟩
  simp [tick, hen, hid, hlim, hfire]

/-- C3 witness: the amended theorem applied to the freshly started baseline
session with a failing pointer capability. -/
theorem pointer_error_panics_witness :
    tick 1 0 0 false (click_loop_init demo_app) =
      .panicked { click_loop_init demo_app with
                    mouse_is_pressed := !(click_loop_init demo_app).mouse_is_pressed } :=
  (pointer_error_panics 1 0 0 (click_loop_init demo_app) rfl rfl
    (by simp [limit_says_stop, click_loop_init, demo_app])
    (by simp [should_click, click_loop_init, demo_app])).1

/-- C4 counterexample: in the non-Toggle click mode (`ClickMode::Click`),
one successful fire still flips `mouse_is_pressed` to `true` (main.rs:143
flips it unconditionally before calling `click_mouse`), contradicting the
claim that in non-Toggle modes the flag never becomes true. -/
theorem pressed_flag_click_mode_cex :
    (click_loop_init demo_app).click_mode = ClickMode.Click ∧
    tick 1 0 0 true (click_loop_init demo_app) =
      .next { click_loop_init demo_app with
                mouse_is_pressed := true
                total_clicks := 1 } 0 ∧
    ({ click_loop_init demo_app with
        mouse_is_pressed := true
        total_clicks := 1 } : App).mouse_is_pressed = true := by
  refine ⟨rfl, ?_, rfl⟩
  simp [tick, click_loop_init, demo_app, limit_says_stop, should_click,
    time_to_wait, total_seconds]

/-- C4 amended: `mouse_is_pressed` alternates strictly on each successful
fire in every click mode, not only in Toggle (the flip at main.rs:143 is
unconditional): a tick that fires flips it, a tick that continues without
firing leaves it unchanged, and a forced stop whose release succeeds always
leaves it false. -/
theorem pressed_flag_alternation :
    (∀ (captured : Nat) (e u : ℚ) (s s' : App) (w : ℚ),
      tick captured e u true s = .next s' w →
        s'.mouse_is_pressed =
          (if should_click s then !s.mouse_is_pressed
           else s.mouse_is_pressed)) ∧
    (∀ (ok : Bool) (s s' : App),
      try_release_mouse ok s = some s' → s'.mouse_is_pressed = false) ∧
    (∀ s : App, s.mouse_is_pressed = true →
      try_release_mouse true s = some { s with mouse_is_pressed := false }) := by
  refine ⟨?_, ?_, ?_⟩
  · intro captured e u s s' w h
    by_cases h1 : s.clicker_enabled = false ∨ captured ≠ s.clicker_id
    · simp [tick, h1] at h
    · by_cases h2 : limit_says_stop e s = true
      · simp [tick, h1, h2] at h
      · by_cases h3 : should_click s = true
        · simp [tick, h1, h2, h3] at h
          simp [← h.1, h3]
        · simp [tick, h1, h2, h3] at h
          simp [← h.1, h3]
  · intro ok s s' h
    unfold try_release_mouse at h
    by_cases hp : s.mouse_is_pressed = true
    · rw [if_pos hp] at h
      cases ok with
      | false => simp at h
      | true => simp at h; simp [← h]
    · rw [if_neg hp] at h
      simp at h
      rw [← h]
      simpa using hp
  · intro s hp
    simp [try_release_mouse, hp]

/-- C4 witness: the amended theorem applied to a fresh baseline session (a
firing tick flips the flag) and to a pressed state (a successful forced
release clears it). -/
theorem pressed_flag_alternation_witness :
    (({ click_loop_init demo_app with
          mouse_is_pressed := true
          total_clicks := 1 } : App).mouse_is_pressed =
      (if should_click (click_loop_init demo_app) then
          !(click_loop_init demo_app).mouse_is_pressed
        else (click_loop_init demo_app).mouse_is_pressed)) ∧
    try_release_mouse true { demo_app with mouse_is_pressed := true } =
      some { demo_app with mouse_is_pressed := false } :=
  ⟨pressed_flag_alternation.1 1 0 0 (click_loop_init demo_app) _ 0
      (by simp [tick, click_loop_init, demo_app, limit_says_stop,
        should_click, time_to_wait, total_seconds]),
   pressed_flag_alternation.2.2 { demo_app with mouse_is_pressed := true } rfl⟩

/-- C5: a superseded or disabled loop instance performs zero further
actions: a tick whose captured `clicker_id` no longer matches (or that sees
`clicker_enabled == false`) exits immediately with the state untouched, the
whole remaining run does the same, and starting a new session bumps
`clicker_id` so the old instance's captured id can no longer match. -/
theorem stale_session_no_actions (captured : Nat) (s : App)
    (h : s.clicker_enabled = false ∨ captured ≠ s.clicker_id) :
    (∀ e u ok, tick captured e u ok s = .exit .stale s) ∧
    (∀ (i : TickIn) (inputs : List TickIn),
      run captured (i :: inputs) s = .exited .stale s) ∧
    (∀ s0 : App, captured = s0.clicker_id →
      (click_loop_init s0).clicker_id ≠ captured) := by
  have htick : ∀ e u ok, tick captured e u ok s = .exit .stale s := by
    intro e u ok
    unfold tick
    rw [if_pos h]
  refine ⟨htick, ?_, ?_⟩
  · intro i inputs
    unfold run
    rw [htick i.elapsed i.u i.mouseOk]
  · intro s0 hc
    simp [click_loop_init, hc]

/-- C5 witness: a loop instance that captured id 1 observes that a newer
session bumped `clicker_id` to 2 and exits with the state untouched. -/
theorem stale_session_no_actions_witness :
    run 1 [⟨0, 0, true⟩]
        (click_loop_init { demo_app with clicker_id := 1 }) =
      .exited .stale (click_loop_init { demo_app with clicker_id := 1 }) :=
  (stale_session_no_actions 1
      (click_loop_init { demo_app with clicker_id := 1 })
      (Or.inr (by simp [click_loop_init]))).2.1 ⟨0, 0, true⟩ []

/-- C6: when the Limit Policy signals stop on a valid tick, the loop sets
`clicker_enabled := false` and exits with reason `limit`; the UI's
edge-detection then observes the falling edge and force-releases the button,
so the resulting state never leaves `mouse_is_pressed` set. -/
theorem limit_stop_releases_button (captured : Nat) (e u : ℚ) (ok : Bool)
    (s : App) (hen : s.clicker_enabled = true) (hid : captured = s.clicker_id)
    (hstop : limit_says_stop e s = true)
    (hlast : s.last_clicker_enabled = true) :
    tick captured e u ok s = .exit .limit { s with clicker_enabled := false } ∧
    ({ s with clicker_enabled := false } : App).clicker_enabled = false ∧
    ∃ s2 : App,
      ui_update_edge true { s with clicker_enabled := false } = some s2 ∧
      s2.mouse_is_pressed = false ∧ s2.clicker_enabled = false := by
  refine ⟨?_, rfl, ?_⟩
  · simp [tick, hen, hid, hstop]
  · unfold ui_update_edge
    rw [if_pos (by simp [hlast])]
    rw [if_neg (by simp)]
    by_cases hp : s.mouse_is_pressed = true
    · refine ⟨{ s with
          clicker_enabled := false
          last_clicker_enabled := false
          mouse_is_pressed := false },
        ?_, rfl, rfl⟩
      simp [try_release_mouse, hp]
    · simp at hp
      refine ⟨{ s with
          clicker_enabled := false
          last_clicker_enabled := false }, ?_, ?_, rfl⟩
      · simp [try_release_mouse, hp]
      · simpa using hp

/-- C6 witness: a Toggle session at its click limit, with the button held,
exits via the limit and the UI edge-detection releases the button. -/
theorem limit_stop_releases_button_witness :
    ∃ s2 : App,
      ui_update_edge true
          { demo_app with click_mode := .Toggle, mouse_is_pressed := true,
                          total_clicks := 1, clicker_enabled := false } =
        some s2 ∧ s2.mouse_is_pressed = false ∧ s2.clicker_enabled = false :=
  (limit_stop_releases_button 0 0 0 true
      { demo_app with click_mode := .Toggle, mouse_is_pressed := true,
                      total_clicks := 1 }
      rfl rfl (by simp [limit_says_stop, demo_app]) rfl).2.2

/-- C8: the random-interval configuration clamps `max` into `[0, 3600]` and
`min` into `[0, max]`; under those bounds every sampled wait lies in
`[min, max]` inclusive, and when `min == max` the wait equals the fixed
value on every tick — exactly the behavior of Constant mode with that
value. -/
theorem random_interval_bounds :
    (∀ mn mx : ℚ,
      0 ≤ (clamp_random_bounds mn mx).1 ∧
      (clamp_random_bounds mn mx).1 ≤ (clamp_random_bounds mn mx).2 ∧
      (clamp_random_bounds mn mx).2 ≤ 3600) ∧
    (∀ (s : App) (u : ℚ), s.interval_mode = .Random →
      s.interval_mode_random_min ≤ s.interval_mode_random_max →
      0 ≤ u → u ≤ 1 →
      s.interval_mode_random_min ≤ time_to_wait u s ∧
        time_to_wait u s ≤ s.interval_mode_random_max) ∧
    (∀ (s t : App) (u v : ℚ), s.interval_mode = .Random →
      s.interval_mode_random_min = v → s.interval_mode_random_max = v →
      t.interval_mode = .Constant → total_seconds t = v →
      time_to_wait u s = v ∧ time_to_wait u t = v) := by
  refine ⟨?_, ?_, ?_⟩
  · intro mn mx
    unfold clamp_random_bounds rust_clamp
    exact ⟨le_min (le_max_right _ _) (le_min (le_max_right _ _) (by norm_num)),
      min_le_right _ _, min_le_right _ _⟩
  · intro s u hmode hle hu0 hu1
    simp only [time_to_wait, hmode]
    constructor
    · nlinarith
    · nlinarith
  · intro s t u v hmode hmin hmax htmode htsec
    constructor
    · simp only [time_to_wait, hmode, hmin, hmax]; ring
    · simp only [time_to_wait, htmode, htsec]

/-- C8 witness: the clamp applied to the out-of-range pair (-5, 5000), and
the sample bounds and min = max collapse at the baseline configuration's
random bounds. -/
theorem random_interval_bounds_witness :
    (0 ≤ (clamp_random_bounds (-5) 5000).1 ∧
      (clamp_random_bounds (-5) 5000).1 ≤ (clamp_random_bounds (-5) 5000).2 ∧
      (clamp_random_bounds (-5) 5000).2 ≤ 3600) ∧
    (1 ≤ time_to_wait (1 / 2) { demo_app with interval_mode := .Random } ∧
      time_to_wait (1 / 2) { demo_app with interval_mode := .Random } ≤ 2) ∧
    time_to_wait (1 / 2)
        { demo_app with
            interval_mode := .Random
            interval_mode_random_max := 1 } = 1 :=
  ⟨random_interval_bounds.1 (-5) 5000,
   random_interval_bounds.2.1 { demo_app with interval_mode := .Random }
     (1 / 2) rfl (by norm_num [demo_app]) (by norm_num) (by norm_num),
   (random_interval_bounds.2.2
     { demo_app with
         interval_mode := .Random
         interval_mode_random_max := 1 }
     { demo_app with seconds := 1 } (1 / 2) 1 rfl rfl rfl rfl
     (by norm_num [total_seconds, demo_app])).1⟩

/-- C9: on a tick that continues, the computed wait equals the Interval
Policy value of the pre-tick state whether or not the gate fired, and a
gated (non-firing) tick changes nothing but still waits; the limit check
runs strictly before the gate check, so a tick at an exhausted limit exits
(clearing `clicker_enabled`) without performing any action even when the
gate would fire. -/
theorem gate_skip_waits_limit_first :
    (∀ (captured : Nat) (e u : ℚ) (s s' : App) (w : ℚ),
      tick captured e u true s = .next s' w →
        w = time_to_wait u s ∧ (should_click s = false → s' = s)) ∧
    (∀ (captured : Nat) (e u : ℚ) (ok : Bool) (s : App),
      s.clicker_enabled = true → captured = s.clicker_id →
      limit_says_stop e s = true →
      tick captured e u ok s =
        .exit .limit { s with clicker_enabled := false } ∧
      ({ s with clicker_enabled := false } : App).total_clicks =
        s.total_clicks) := by
  constructor
  · intro captured e u s s' w h
    by_cases h1 : s.clicker_enabled = false ∨ captured ≠ s.clicker_id
    · simp [tick, h1] at h
    · by_cases h2 : limit_says_stop e s = true
      · simp [tick, h1, h2] at h
      · by_cases h3 : should_click s = true
        · simp [tick, h1, h2, h3] at h
          refine ⟨?_, ?_⟩
          · rw [← h.2]
            exact time_to_wait_fire_invariant u s
          · intro hno; rw [h3] at hno; cases hno
        · simp [tick, h1, h2, h3] at h
          exact ⟨h.2.symm, fun _ => h.1.symm⟩
  · intro captured e u ok s hen hid hstop
    refine ⟨?_, rfl⟩
    simp [tick, hen, hid, hstop]

/-- C9 witness: a non-firing gated tick (gate enabled, threshold 0, sampled
color far from the target) still waits the interval value and leaves the
state unchanged; a tick at an exhausted click limit exits without an
action. -/
theorem gate_skip_waits_limit_first_witness :
    ((0 : ℚ) = time_to_wait 0 gated_demo_app ∧
      (should_click gated_demo_app = false →
        gated_demo_app = gated_demo_app)) ∧
    tick 1 0 0 true exhausted_demo_app =
      .exit .limit { exhausted_demo_app with clicker_enabled := false } :=
  ⟨gate_skip_waits_limit_first.1 1 0 0 gated_demo_app gated_demo_app 0
      (by
        have hsc : should_click gated_demo_app = false := by
          show (!true || (true &&
            percentage_le ⟨255, 0, 0⟩ ⟨0, 0, 0⟩ 0)) = false
          rw [percentage_le]
          simp only [Bool.not_true, Bool.false_or, Bool.true_and,
            decide_eq_false_iff_not]
          intro hcontra
          have h2 := hcontra.2
          rw [show color_sq_dist ⟨255, 0, 0⟩ ⟨0, 0, 0⟩ = 65025 from rfl] at h2
          norm_num at h2
        unfold tick
        rw [if_neg (by simp [gated_demo_app, demo_app])]
        rw [if_neg (by simp [limit_says_stop, gated_demo_app, demo_app])]
        rw [if_neg (by simp [hsc])]
        norm_num [time_to_wait, total_seconds, gated_demo_app, demo_app]),
   (gate_skip_waits_limit_first.2 1 0 0 true exhausted_demo_app
      rfl rfl (by simp [limit_says_stop, exhausted_demo_app, demo_app])).1⟩

/-- Along any run in Clicks limit mode, `total_clicks` never exceeds the
configured amount, and an exit with reason `limit` delivers a state whose
count equals the amount exactly with `clicker_enabled` cleared. -/
theorem run_clicks_invariant (captured : Nat) (inputs : List TickIn) :
    ∀ s : App, s.limit_mode = .Clicks →
      s.total_clicks ≤ s.limit_mode_clicks_amount →
      (run captured inputs s).state.total_clicks ≤
        s.limit_mode_clicks_amount ∧
      (∀ s', run captured inputs s = .exited .limit s' →
        s'.total_clicks = s.limit_mode_clicks_amount ∧
        s'.clicker_enabled = false) := by
  induction inputs with
  | nil =>
      intro s hm hle
      refine ⟨by simpa [run, LoopResult.state] using hle, ?_⟩
      intro s' h
      simp [run] at h
  | cons i is ih =>
      intro s hm hle
      by_cases h1 : s.clicker_enabled = false ∨ captured ≠ s.clicker_id
      · have hrun : run captured (i :: is) s = .exited .stale s := by
          simp [run, tick, h1]
        rw [hrun]
        refine ⟨by simpa [LoopResult.state] using hle, ?_⟩
        intro s' h
        simp at h
      · by_cases h2 : limit_says_stop i.elapsed s = true
        · have htot : s.limit_mode_clicks_amount ≤ s.total_clicks := by
            simpa [limit_says_stop, hm] using h2
          have heq : s.total_clicks = s.limit_mode_clicks_amount :=
            le_antisymm hle htot
          have hrun : run captured (i :: is) s =
              .exited .limit { s with clicker_enabled := false } := by
            simp [run, tick, h1, h2]
          rw [hrun]
          refine ⟨by simpa [LoopResult.state] using hle, ?_⟩
          intro s' h
          simp only [LoopResult.exited.injEq, true_and] at h
          rw [← h]
          exact ⟨heq, rfl⟩
        · by_cases h3 : should_click s = true
          · by_cases h4 : i.mouseOk = true
            · have hrun : run captured (i :: is) s = run captured is
                  { s with
                      mouse_is_pressed := !s.mouse_is_pressed
                      total_clicks := s.total_clicks + 1 } := by
                simp [run, tick, h1, h2, h3, h4]
              have hlt : s.total_clicks < s.limit_mode_clicks_amount := by
                have hn : ¬ s.limit_mode_clicks_amount ≤ s.total_clicks := by
                  intro hcon
                  exact h2 (by simp [limit_says_stop, hm, hcon])
                omega
              rw [hrun]
              exact ih
                { s with
                    mouse_is_pressed := !s.mouse_is_pressed
                    total_clicks := s.total_clicks + 1 } hm hlt
            · have hrun : run captured (i :: is) s =
                  .panicked { s with mouse_is_pressed := !s.mouse_is_pressed } := by
                simp [run, tick, h1, h2, h3, h4]
              rw [hrun]
              refine ⟨by simpa [LoopResult.state] using hle, ?_⟩
              intro s' h
              simp at h
          · have hrun : run captured (i :: is) s = run captured is s := by
              simp [run, tick, h1, h2, h3]
            rw [hrun]
            exact ih s hm hle

/-- C2: with limit mode Clicks(n), the limit is checked before the
increment: a tick that sees `total_clicks ≥ n` exits at once with
`clicker_enabled` cleared and no action performed, every state a session
can produce has `total_clicks ≤ n`, and a session that terminates through
the click limit ends with `total_clicks = n` exactly. -/
theorem clicks_limit_exact :
    (∀ (inputs : List TickIn) (s : App), s.limit_mode = .Clicks →
      (click_loop inputs s).state.total_clicks ≤
        s.limit_mode_clicks_amount) ∧
    (∀ (inputs : List TickIn) (s s' : App), s.limit_mode = .Clicks →
      click_loop inputs s = .exited .limit s' →
      s'.total_clicks = s.limit_mode_clicks_amount ∧
      s'.clicker_enabled = false) ∧
    (∀ (captured : Nat) (e u : ℚ) (ok : Bool) (s : App),
      s.clicker_enabled = true → captured = s.clicker_id →
      s.limit_mode = .Clicks →
      s.limit_mode_clicks_amount ≤ s.total_clicks →
      tick captured e u ok s =
        .exit .limit { s with clicker_enabled := false }) := by
  refine ⟨?_, ?_, ?_⟩
  · intro inputs s hm
    exact (run_clicks_invariant (click_loop_init s).clicker_id inputs
      (click_loop_init s) hm (Nat.zero_le _)).1
  · intro inputs s s' hm h
    exact (run_clicks_invariant (click_loop_init s).clicker_id inputs
      (click_loop_init s) hm (Nat.zero_le _)).2 s' h
  · intro captured e u ok s hen hid hm htot
    simp [tick, hen, hid, limit_says_stop, hm, htot]

/-- C2 witness: the baseline session (limit one click) run for two ticks
fires once and then exits through the limit with `total_clicks = 1` and the
flag cleared. -/
theorem clicks_limit_exact_witness :
    demo_app.limit_mode = .Clicks ∧
    (limit_demo_final.total_clicks = demo_app.limit_mode_clicks_amount ∧
      limit_demo_final.clicker_enabled = false) :=
  ⟨rfl,
   clicks_limit_exact.2.1 [⟨0, 0, true⟩, ⟨0, 0, true⟩] demo_app
     limit_demo_final rfl
     (by simp [click_loop, click_loop_init, run, tick, demo_app,
       limit_says_stop, should_click, limit_demo_final, time_to_wait,
       total_seconds])⟩

end Clickr
